import Mathlib

/-!
Shallow embedding of `src/app/app.py` (a Flask Taboo party game).

The whole game state lives in the module-level dict `GAME`; each route
handler reads/writes it and returns a redirect or renders a template.
We model `GAME` as a `Game` structure and each handler as a pure function
`Game → inputs → Game × response`.  Non-deterministic or ambient inputs of
a handler (`session["player_id"]`, form fields, `uuid4().hex`,
`random.shuffle`, the content of `cards.json`) are passed as explicit
parameters.
-/

namespace Taboo

/-- `Card` dataclass of app.py: `word : str`, `taboo : List[str]`. -/
structure Card where
  word : String
  taboo : List String
deriving DecidableEq, Repr

/-- A player dict as created by the `/join` handler:
`{"id": uuid4().hex, "name": name, "team": team}`. -/
structure Player where
  id : String
  name : String
  team : String
deriving DecidableEq, Repr

/-- The `GAME["scores"]` dict `{"red": int, "blue": int}`.  Scores are
modelled as `Int` so that non-negativity is a provable property rather
than built into the type.  Only the keys `"red"` and `"blue"` ever occur
(the `/join` handler admits no other team), so the dict is modelled by
its two entries together with string-keyed get/set. -/
structure Scores where
  red : Int
  blue : Int
deriving DecidableEq, Repr

/-- `scores.get(team, 0)`. -/
def Scores.get (s : Scores) (team : String) : Int :=
  if team = "red" then s.red
  else if team = "blue" then s.blue
  else 0

/-- `scores[team] = v` (only ever reached with team "red" or "blue"). -/
def Scores.set (s : Scores) (team : String) (v : Int) : Scores :=
  if team = "red" then { s with red := v }
  else if team = "blue" then { s with blue := v }
  else s

/-- The module-level `GAME` dict. -/
structure Game where
  players : List Player
  deck : List String
  cards : List Card
  scores : Scores
  passes : Nat
  turn_index : Nat
  time_limit : Int
  started : Bool
deriving DecidableEq, Repr

/-- Python `str.strip()`: drop leading and trailing whitespace.  (Defined
over `String.data` so that it evaluates inside the kernel.) -/
def pyStrip (s : String) : String :=
  ⟨((s.data.dropWhile Char.isWhitespace).reverse.dropWhile
      Char.isWhitespace).reverse⟩

/-- Python `str.lower()` (ASCII case, which covers the team names the
app compares against). -/
def pyLower (s : String) : String := ⟨s.data.map Char.toLower⟩

/-- `DEFAULT_TIME_LIMIT = 60`. -/
def DEFAULT_TIME_LIMIT : Int := 60

/-- The initial value of `GAME` at process start (app.py lines 23-32). -/
def initGame : Game :=
  { players := [], deck := [], cards := [], scores := ⟨0, 0⟩,
    passes := 0, turn_index := 0, time_limit := DEFAULT_TIME_LIMIT,
    started := false }

/-- A raw entry of `cards.json` as seen by `load_cards` after the `str()`
coercions: a `word` string and a list of `taboo` strings (an absent key
is modelled by the empty string / empty list, matching the
`entry.get(..., default)` calls). -/
structure RawEntry where
  word : String
  taboo : List String
deriving DecidableEq, Repr

/-- `load_cards()` (app.py lines 35-43), with the parsed JSON content of
`cards.json` passed explicitly: strip the word, strip each taboo entry
and drop the empty ones, and keep the card only if both the word and the
filtered taboo list are non-empty. -/
def load_cards (raw : List RawEntry) : List Card :=
  raw.filterMap fun e =>
    let w := pyStrip e.word
    let tb := (e.taboo.map pyStrip).filter fun s => s ≠ ""
    if w ≠ "" ∧ tb ≠ [] then some ⟨w, tb⟩ else none

/-- `get_current_user()` (app.py lines 46-50): look up
`session["player_id"]` among `GAME["players"]`.  `spid = none` models a
missing cookie; the empty string is also falsy in Python
(`if not player_id`). -/
def get_current_user (g : Game) (spid : Option String) : Option Player :=
  match spid with
  | none => none
  | some pid => if pid = "" then none else g.players.find? fun p => p.id = pid

/-- `players[GAME["turn_index"] % len(players)]` (the active clue-giver),
as computed by the `game`, `action` and `next_turn` handlers.  The
default is irrelevant: every use site first checks `players` non-empty. -/
def activePlayer (g : Game) : Player :=
  g.players.getD (g.turn_index % g.players.length) ⟨"", "", ""⟩

/-- Result of the `/join` handler: a redirect to index with an error put
into the session, or a redirect to index after appending the new player
(whose fresh id is also bound to the caller's session). -/
inductive JoinResult where
  | rejected (err : String)
  | joined (newSessionPlayerId : String)
deriving DecidableEq, Repr

/-- `/join` (app.py lines 73-86).  `name`/`team` are the form fields
(absent fields default to `""`), `newId` is the `uuid4().hex` value. -/
def join (g : Game) (name team newId : String) : Game × JoinResult :=
  if g.started then
    (g, .rejected "Round already started. End round to join.")
  else
    let name := pyStrip name
    let team := pyLower (pyStrip team)
    if name = "" ∨ ¬(team = "red" ∨ team = "blue") then
      (g, .rejected "Enter a player name and choose a team.")
    else
      ({ g with players := g.players ++ [⟨newId, name, team⟩] }, .joined newId)

/-- Result of the `/start` handler: a redirect to index with an error, a
redirect to the game page after a successful start, or an uncaught
`ValueError` from `int(request.form.get("time_limit", ...))` (surfaced
by Flask as an HTTP 500, not as a redirect). -/
inductive StartResult where
  | rejected (err : String)
  | started
  | valueError
deriving DecidableEq, Repr

/-- Constructor discriminator for `StartResult`. -/
def StartResult.isRejected : StartResult → Bool
  | .rejected _ => true
  | _ => false

/-- `/start` (app.py lines 88-111).  `raw` is the parsed content of
`cards.json`; `shuffle` models `random.shuffle` (an arbitrary
permutation function supplied by the environment); `time_limit_field`
models `int(request.form.get("time_limit", DEFAULT_TIME_LIMIT))`:
`some v` when `int(...)` returns `v` (including the absent-field default
60), `none` when the submitted value makes `int(...)` raise `ValueError`.
Note the mutation order of the source: deck, cards, scores, passes and
turn_index are assigned (lines 104-108) before `int(...)` runs on
line 109, so on `ValueError` those five fields are already overwritten
while `time_limit` and `started` keep their old values. -/
def start_game (g : Game) (raw : List RawEntry)
    (shuffle : List String → List String) (time_limit_field : Option Int) :
    Game × StartResult :=
  if g.players.length < 2 then
    (g, .rejected "Add at least two players to start.")
  else if ¬((∃ p ∈ g.players, p.team = "red") ∧ (∃ p ∈ g.players, p.team = "blue")) then
    (g, .rejected "Add at least one player to each team.")
  else
    let cards := load_cards raw
    if cards = [] then
      (g, .rejected "No cards available in cards.json.")
    else
      let deck := shuffle (cards.map Card.word)
      let g1 := { g with deck := deck, cards := cards, scores := ⟨0, 0⟩,
                         passes := 0, turn_index := 0 }
      match time_limit_field with
      | some v => ({ g1 with time_limit := v, started := true }, .started)
      | none => (g1, .valueError)

/-- What the `game` handler passes to `render_template("game.html", ...)`
(app.py lines 137-147). -/
structure GameView where
  card : Option Card
  scores : Scores
  passes : Nat
  time_limit : Int
  current_player : Player
  opposite_team : String
  can_view : Bool
  current_user : Option Player
deriving DecidableEq, Repr

/-- `/game` (app.py lines 113-147).  Read-only: returns `none` for the
three redirect-to-index guards (not started / no players / empty deck),
otherwise the rendered view. -/
def game_route (g : Game) (spid : Option String) : Option GameView :=
  if ¬g.started then none
  else if g.players = [] then none
  else if g.deck = [] then none
  else
    let current_player := activePlayer g
    let opposite_team := if current_player.team = "red" then "blue" else "red"
    let current_user := get_current_user g spid
    let can_view :=
      match current_user with
      | none => false
      | some u => u.id = current_player.id ∨ u.team = opposite_team
    let current_word := g.deck.headD ""
    let card := g.cards.find? fun c => c.word = current_word
    some { card := card, scores := g.scores, passes := g.passes,
           time_limit := g.time_limit, current_player := current_player,
           opposite_team := opposite_team, can_view := can_view,
           current_user := current_user }

/-- Modelled from the spec: the `game.html` template is not under `src/`;
per the spec, the rendered page shows the secret word (and its taboo
list) only when `canSeeWord` is true, and otherwise returns a redacted
view.  This function gives the word revealed by the rendered view. -/
def revealedWord (v : GameView) : Option String :=
  if v.can_view then v.card.map Card.word else none

/-- Responses of the `/action` and `/turn/next` handlers. -/
inductive ActionResponse where
  | redirectIndex
  | redirectGame
deriving DecidableEq, Repr

/-- `/action` (app.py lines 149-176).  `spid` is `session.get("player_id")`,
`action_type` is `request.form.get("action")` (`none` when absent). -/
def action (g : Game) (spid action_type : Option String) :
    Game × ActionResponse :=
  if g.players = [] then (g, .redirectIndex)
  else if g.deck = [] then (g, .redirectIndex)
  else
    let current_player := activePlayer g
    if spid ≠ some current_player.id then (g, .redirectGame)
    else
      let team := current_player.team
      let current := g.deck.headD ""
      let rest := g.deck.tail
      let scores :=
        if action_type = some "correct" then
          (g.scores).set team ((g.scores).get team + 1)
        else if action_type = some "taboo" then
          (g.scores).set team (max 0 ((g.scores).get team - 1))
        else g.scores
      let passes := if action_type = some "pass" then g.passes + 1 else g.passes
      let deck := if action_type = some "pass" then rest ++ [current] else rest
      let g' := { g with scores := scores, passes := passes, deck := deck }
      if deck = [] then (g', .redirectIndex) else (g', .redirectGame)

/-- `/turn/next` (app.py lines 178-188). -/
def next_turn (g : Game) (spid : Option String) : Game × ActionResponse :=
  if g.players = [] then (g, .redirectIndex)
  else
    let current_player := activePlayer g
    if spid ≠ some current_player.id then (g, .redirectGame)
    else
      ({ g with turn_index := (g.turn_index + 1) % g.players.length },
        .redirectGame)

/-- `/reset` (app.py lines 190-201): every field of `GAME` is reset to
its initial value (and the caller's session is cleared, invalidating the
stored player id — the session side is outside the `Game` state). -/
def reset (_g : Game) : Game := initGame

/-- The states of `GAME` reachable from process start through the
state-mutating handlers, over arbitrary handler inputs (form fields,
session ids, fresh uuids, catalog content and shuffle). -/
inductive Reachable : Game → Prop where
  | init : Reachable initGame
  | step_join (g : Game) (name team newId : String) :
      Reachable g → Reachable (join g name team newId).1
  | step_start (g : Game) (raw : List RawEntry)
      (shuffle : List String → List String) (tl : Option Int) :
      Reachable g → Reachable (start_game g raw shuffle tl).1
  | step_action (g : Game) (spid a : Option String) :
      Reachable g → Reachable (action g spid a).1
  | step_next_turn (g : Game) (spid : Option String) :
      Reachable g → Reachable (next_turn g spid).1
  | step_reset (g : Game) : Reachable g → Reachable (reset g)

/-- Every registered player is on team "red" or "blue". -/
def TeamsOK (g : Game) : Prop :=
  ∀ p ∈ g.players, p.team = "red" ∨ p.team = "blue"

/-! Concrete states used as witnesses, built by running the handlers. -/

/-- A two-card catalog. -/
def rawCatalog : List RawEntry :=
  [⟨"apple", ["fruit", "red"]⟩, ⟨"dog", ["bark", "pet"]⟩]

/-- A one-card catalog. -/
def rawOne : List RawEntry := [⟨"apple", ["fruit"]⟩]

/-- Alice (red) and Bob (blue) registered. -/
def gJoined : Game :=
  (join (join initGame "Alice" "red" "idA").1 "Bob" "blue" "idB").1

/-- Round started on the two-card catalog (identity shuffle). -/
def gStarted : Game := (start_game gJoined rawCatalog id (some 60)).1

/-- After Alice's `correct` on the first card: score red 1, deck ["dog"]. -/
def gAfter : Game := (action gStarted (some "idA") (some "correct")).1

/-- Alice (red), Bob (blue) and Carol (red) registered. -/
def gJoined3 : Game := (join gJoined "Carol" "red" "idC").1

/-- Three-player round started; Alice is the active clue-giver and Carol
is her non-active teammate. -/
def gStarted3 : Game := (start_game gJoined3 rawCatalog id (some 60)).1

/-- Round started on the one-card catalog: the next scoring action
exhausts the deck. -/
def gOne : Game := (start_game gJoined rawOne id (some 60)).1

/-- Carol's player record in `gStarted3`. -/
def carol : Player := ⟨"idC", "Carol", "red"⟩

/-- The view `game_route` renders for Carol in `gStarted3`. -/
def viewC : GameView :=
  { card := some ⟨"apple", ["fruit", "red"]⟩, scores := ⟨0, 0⟩,
    passes := 0, time_limit := 60,
    current_player := ⟨"idA", "Alice", "red"⟩, opposite_team := "blue",
    can_view := false, current_user := some carol }

/-! Helper lemmas. -/

theorem Scores.get_set_self (s : Scores) (t : String) (v : Int)
    (ht : t = "red" ∨ t = "blue") : (s.set t v).get t = v := by
  rcases ht with h | h <;> subst h <;> simp [Scores.set, Scores.get]

theorem Scores.get_nonneg (s : Scores) (t : String)
    (hr : 0 ≤ s.red) (hb : 0 ≤ s.blue) : 0 ≤ s.get t := by
  unfold Scores.get
  split
  · exact hr
  · split
    · exact hb
    · exact le_refl 0

theorem Scores.set_nonneg (s : Scores) (t : String) (v : Int)
    (hr : 0 ≤ s.red) (hb : 0 ≤ s.blue) (hv : 0 ≤ v) :
    0 ≤ (s.set t v).red ∧ 0 ≤ (s.set t v).blue := by
  unfold Scores.set
  split
  · exact ⟨hv, hb⟩
  · split
    · exact ⟨hr, hv⟩
    · exact ⟨hr, hb⟩

theorem activePlayer_mem (g : Game) (hp : g.players ≠ []) :
    activePlayer g ∈ g.players := by
  unfold activePlayer
  have hlt : g.turn_index % g.players.length < g.players.length :=
    Nat.mod_lt _ (List.length_pos.mpr hp)
  rw [List.getD_eq_getElem _ _ hlt]
  exact List.getElem_mem hlt

/-- The `action` handler on an accepted call (non-empty roster, non-empty
deck, requester is the active clue-giver): full characterization. -/
theorem action_accepted (g : Game) (a : Option String) (c : String)
    (cs : List String) (hp : g.players ≠ []) (hd : g.deck = c :: cs) :
    action g (some (activePlayer g).id) a =
      ({ g with
          scores :=
            if a = some "correct" then
              g.scores.set (activePlayer g).team
                (g.scores.get (activePlayer g).team + 1)
            else if a = some "taboo" then
              g.scores.set (activePlayer g).team
                (max 0 (g.scores.get (activePlayer g).team - 1))
            else g.scores,
          passes := if a = some "pass" then g.passes + 1 else g.passes,
          deck := if a = some "pass" then cs ++ [c] else cs },
        if (if a = some "pass" then cs ++ [c] else cs) = [] then
          ActionResponse.redirectIndex
        else ActionResponse.redirectGame) := by
  unfold action
  rw [if_neg hp, if_neg (by simp [hd] : ¬g.deck = [])]
  simp [hd]
  split <;> split <;> rfl

/-- A `recordAction` call rejected by a guard (empty roster, empty deck,
or requester other than the active clue-giver) leaves the state as is. -/
theorem action_rejected_eq (g : Game) (spid a : Option String)
    (h : g.players = [] ∨ g.deck = [] ∨ spid ≠ some (activePlayer g).id) :
    (action g spid a).1 = g := by
  unfold action
  rcases h with h | h | h
  · rw [if_pos h]
  · by_cases hp : g.players = []
    · rw [if_pos hp]
    · rw [if_neg hp, if_pos h]
  · by_cases hp : g.players = []
    · rw [if_pos hp]
    · rw [if_neg hp]
      by_cases hd : g.deck = []
      · rw [if_pos hd]
      · rw [if_neg hd, if_pos h]

/-- An `advanceTurn` call rejected by a guard leaves the state as is. -/
theorem next_turn_rejected_eq (g : Game) (spid : Option String)
    (h : g.players = [] ∨ spid ≠ some (activePlayer g).id) :
    (next_turn g spid).1 = g := by
  unfold next_turn
  rcases h with h | h
  · rw [if_pos h]
  · by_cases hp : g.players = []
    · rw [if_pos hp]
    · rw [if_neg hp, if_pos h]

/-- A rejected `/join` leaves the state as is. -/
theorem join_rejected_eq (g : Game) (name team newId e : String)
    (h : (join g name team newId).2 = .rejected e) :
    (join g name team newId).1 = g := by
  by_cases hs : g.started
  · simp [join, hs]
  · simp only [join, hs, Bool.false_eq_true, if_false] at h ⊢
    by_cases hv : pyStrip name = "" ∨
        ¬(pyLower (pyStrip team) = "red" ∨ pyLower (pyStrip team) = "blue")
    · rw [if_pos hv]
    · rw [if_neg hv] at h
      exact absurd h (by simp)

/-- A rejected `/start` leaves the state as is. -/
theorem start_rejected_eq (g : Game) (raw : List RawEntry)
    (sh : List String → List String) (tl : Option Int) (e : String)
    (h : (start_game g raw sh tl).2 = .rejected e) :
    (start_game g raw sh tl).1 = g := by
  by_cases h1 : g.players.length < 2
  · simp [start_game, h1]
  · by_cases h2 : (∃ p ∈ g.players, p.team = "red") ∧
        ∃ p ∈ g.players, p.team = "blue"
    · by_cases h3 : load_cards raw = []
      · simp [start_game, h1, h2, h3]
      · exfalso
        cases tl <;> simp [start_game, h1, h2, h3] at h
    · simp [start_game, h1, h2]

/-- `/join` either rejects or appends one validated player. -/
theorem join_players_cases (g : Game) (name team newId : String) :
    (join g name team newId).1 = g ∨
    ∃ p : Player, (p.team = "red" ∨ p.team = "blue") ∧
      (join g name team newId).1 = { g with players := g.players ++ [p] } := by
  by_cases hs : g.started
  · exact Or.inl (by simp [join, hs])
  · simp only [join, hs, Bool.false_eq_true, if_false]
    by_cases hv : pyStrip name = "" ∨
        ¬(pyLower (pyStrip team) = "red" ∨ pyLower (pyStrip team) = "blue")
    · exact Or.inl (by rw [if_pos hv])
    · right
      refine ⟨⟨newId, pyStrip name, pyLower (pyStrip team)⟩, ?_, ?_⟩
      · exact not_not.mp (not_or.mp hv).2
      · rw [if_neg hv]

/-- `/start` either rejects (state as is) or zeroes the scoreboard while
keeping the roster. -/
theorem start_game_cases (g : Game) (raw : List RawEntry)
    (sh : List String → List String) (tl : Option Int) :
    (start_game g raw sh tl).1 = g ∨
    ((start_game g raw sh tl).1.players = g.players ∧
      (start_game g raw sh tl).1.scores = ⟨0, 0⟩) := by
  by_cases h1 : g.players.length < 2
  · exact Or.inl (by simp [start_game, h1])
  · by_cases h2 : (∃ p ∈ g.players, p.team = "red") ∧
        ∃ p ∈ g.players, p.team = "blue"
    · by_cases h3 : load_cards raw = []
      · exact Or.inl (by simp [start_game, h1, h2, h3])
      · right
        cases tl <;> simp [start_game, h1, h2, h3]
    · exact Or.inl (by simp [start_game, h1, h2])

/-- The scoreboard update of an accepted action keeps both entries
non-negative. -/
theorem scoreUpdate_nonneg (s : Scores) (t : String) (a : Option String)
    (hr : 0 ≤ s.red) (hb : 0 ≤ s.blue) :
    0 ≤ (if a = some "correct" then s.set t (s.get t + 1)
         else if a = some "taboo" then s.set t (max 0 (s.get t - 1))
         else s).red ∧
    0 ≤ (if a = some "correct" then s.set t (s.get t + 1)
         else if a = some "taboo" then s.set t (max 0 (s.get t - 1))
         else s).blue := by
  split
  · exact Scores.set_nonneg _ _ _ hr hb
      (by have := Scores.get_nonneg s t hr hb; omega)
  · split
    · exact Scores.set_nonneg _ _ _ hr hb (le_max_left 0 _)
    · exact ⟨hr, hb⟩

/-- Any deck is empty or a cons. -/
theorem deck_cases (g : Game) (hd : g.deck ≠ []) :
    ∃ c cs, g.deck = c :: cs := by
  cases h : g.deck with
  | nil => exact absurd h hd
  | cons c cs => exact ⟨c, cs, rfl⟩

/-- `recordAction` never changes the roster. -/
theorem action_players (g : Game) (spid a : Option String) :
    (action g spid a).1.players = g.players := by
  by_cases hp : g.players = []
  · rw [action_rejected_eq g spid a (Or.inl hp)]
  · by_cases hd : g.deck = []
    · rw [action_rejected_eq g spid a (Or.inr (Or.inl hd))]
    · by_cases hs : spid = some (activePlayer g).id
      · obtain ⟨c, cs, hcs⟩ := deck_cases g hd
        subst hs
        rw [action_accepted g a c cs hp hcs]
      · rw [action_rejected_eq g spid a (Or.inr (Or.inr hs))]

/-- `recordAction` keeps the scoreboard non-negative. -/
theorem action_scores_nonneg (g : Game) (spid a : Option String)
    (hr : 0 ≤ g.scores.red) (hb : 0 ≤ g.scores.blue) :
    0 ≤ (action g spid a).1.scores.red ∧
    0 ≤ (action g spid a).1.scores.blue := by
  by_cases hp : g.players = []
  · rw [action_rejected_eq g spid a (Or.inl hp)]; exact ⟨hr, hb⟩
  · by_cases hd : g.deck = []
    · rw [action_rejected_eq g spid a (Or.inr (Or.inl hd))]; exact ⟨hr, hb⟩
    · by_cases hs : spid = some (activePlayer g).id
      · obtain ⟨c, cs, hcs⟩ := deck_cases g hd
        subst hs
        rw [action_accepted g a c cs hp hcs]
        exact scoreUpdate_nonneg g.scores (activePlayer g).team a hr hb
      · rw [action_rejected_eq g spid a (Or.inr (Or.inr hs))]; exact ⟨hr, hb⟩

/-- `advanceTurn` changes at most the turn index. -/
theorem next_turn_players_scores (g : Game) (spid : Option String) :
    (next_turn g spid).1.players = g.players ∧
    (next_turn g spid).1.scores = g.scores ∧
    (next_turn g spid).1.deck = g.deck ∧
    (next_turn g spid).1.passes = g.passes := by
  unfold next_turn
  by_cases hp : g.players = []
  · rw [if_pos hp]; exact ⟨rfl, rfl, rfl, rfl⟩
  · rw [if_neg hp]
    by_cases hs : spid ≠ some (activePlayer g).id
    · rw [if_pos hs]; exact ⟨rfl, rfl, rfl, rfl⟩
    · rw [if_neg hs]; exact ⟨rfl, rfl, rfl, rfl⟩

/-- The two state invariants of C3, proved together by induction over
reachability: scores stay non-negative and every player's team is "red"
or "blue". -/
theorem reachable_invariant (g : Game) (h : Reachable g) :
    (0 ≤ g.scores.red ∧ 0 ≤ g.scores.blue) ∧ TeamsOK g := by
  induction h with
  | init =>
    refine ⟨⟨le_refl 0, le_refl 0⟩, ?_⟩
    intro p hp
    simp [initGame] at hp
  | step_join g name team newId _ ih =>
    rcases join_players_cases g name team newId with h | ⟨p, hpt, h⟩
    · rw [h]; exact ih
    · rw [h]
      refine ⟨ih.1, ?_⟩
      intro q hq
      rcases List.mem_append.mp hq with hq | hq
      · exact ih.2 q hq
      · rw [List.mem_singleton.mp hq]; exact hpt
  | step_start g raw shuffle tl _ ih =>
    rcases start_game_cases g raw shuffle tl with h | ⟨hpl, hsc⟩
    · rw [h]; exact ih
    · refine ⟨by rw [hsc]; exact ⟨le_refl 0, le_refl 0⟩, ?_⟩
      intro q hq
      rw [hpl] at hq
      exact ih.2 q hq
  | step_action g spid a _ ih =>
    refine ⟨action_scores_nonneg g spid a ih.1.1 ih.1.2, ?_⟩
    intro q hq
    rw [action_players g spid a] at hq
    exact ih.2 q hq
  | step_next_turn g spid _ ih =>
    obtain ⟨hpl, hsc, -, -⟩ := next_turn_players_scores g spid
    refine ⟨by rw [hsc]; exact ih.1, ?_⟩
    intro q hq
    rw [hpl] at hq
    exact ih.2 q hq
  | step_reset g _ _ =>
    refine ⟨⟨le_refl 0, le_refl 0⟩, ?_⟩
    intro p hp
    simp [reset, initGame] at hp

/-- `action` on a non-empty roster and an empty deck: redirect to index,
state untouched. -/
theorem action_empty_deck (g : Game) (spid a : Option String)
    (hp : g.players ≠ []) (hd : g.deck = []) :
    action g spid a = (g, ActionResponse.redirectIndex) := by
  unfold action
  rw [if_neg hp, if_pos hd]

/-! Claim theorems. -/

/-- C1: for a requester on the same team as the active clue-giver who is
not the active player, the `game` view has `can_view = false`, and the
rendered page (template redaction modelled from the spec) does not
reveal the current secret word. -/
theorem C1_same_team_requester_sees_no_word (g : Game) (spid : Option String)
    (v : GameView) (u : Player)
    (hv : game_route g spid = some v)
    (hu : get_current_user g spid = some u)
    (hteam : u.team = v.current_player.team)
    (hid : u.id ≠ v.current_player.id) :
    v.can_view = false ∧ revealedWord v = none := by
  unfold game_route at hv
  by_cases h1 : ¬g.started
  · rw [if_pos h1] at hv; exact absurd hv (by simp)
  · rw [if_neg h1] at hv
    by_cases h2 : g.players = []
    · rw [if_pos h2] at hv; exact absurd hv (by simp)
    · rw [if_neg h2] at hv
      by_cases h3 : g.deck = []
      · rw [if_pos h3] at hv; exact absurd hv (by simp)
      · rw [if_neg h3] at hv
        simp only [Option.some.injEq] at hv
        have hcp : v.current_player = activePlayer g := by rw [← hv]
        rw [hcp] at hteam hid
        have hcv : v.can_view = false := by
          rw [← hv]
          show (match get_current_user g spid with
            | none => false
            | some u => decide (u.id = (activePlayer g).id ∨
                u.team = (if (activePlayer g).team = "red" then "blue" else "red"))) = false
          rw [hu]
          simp only [decide_eq_false_iff_not, not_or]
          refine ⟨hid, ?_⟩
          by_cases hrt : (activePlayer g).team = "red"
          · rw [if_pos hrt, hteam, hrt]
            decide
          · rw [if_neg hrt, hteam]
            exact hrt
        refine ⟨hcv, ?_⟩
        unfold revealedWord
        rw [hcv]
        simp

/-- C2 counterexample: Alice pops the last remaining card with `correct`;
the handler redirects to the index page but `started` remains `true` —
the round-lifecycle flag is NOT cleared on deck exhaustion. -/
theorem C2_counterexample_flag_not_cleared :
    gOne.started = true ∧ gOne.deck.length = 1 ∧
    (action gOne (some "idA") (some "correct")).1.deck = [] ∧
    (action gOne (some "idA") (some "correct")).2 = ActionResponse.redirectIndex ∧
    (action gOne (some "idA") (some "correct")).1.started = true := by decide

/-- C2 (amended): popping the last card redirects to index, leaves the
`started` flag unchanged (it is not cleared), and every subsequent
`action` call is rejected on the empty-deck guard, leaving the final
state — scores included — untouched. -/
theorem C2_amended_deck_exhaustion (g : Game) (c : String) (a : Option String)
    (hp : g.players ≠ []) (hd : g.deck = [c]) (ha : a ≠ some "pass") :
    (action g (some (activePlayer g).id) a).1.deck = [] ∧
    (action g (some (activePlayer g).id) a).2 = ActionResponse.redirectIndex ∧
    (action g (some (activePlayer g).id) a).1.started = g.started ∧
    (∀ spid2 a2, action (action g (some (activePlayer g).id) a).1 spid2 a2 =
      ((action g (some (activePlayer g).id) a).1, ActionResponse.redirectIndex)) := by
  have hdeck : (action g (some (activePlayer g).id) a).1.deck = [] := by
    rw [action_accepted g a c [] hp hd]
    simp [ha]
  refine ⟨hdeck, ?_, ?_, ?_⟩
  · rw [action_accepted g a c [] hp hd]
    simp [ha]
  · rw [action_accepted g a c [] hp hd]
  · intro spid2 a2
    exact action_empty_deck _ spid2 a2
      (by rw [action_players]; exact hp) hdeck

/-- C3: over every reachable state both team scores are non-negative,
and for an accepted action of the active clue-giver: `taboo` sets the
team score to `max 0 (score - 1)`, `correct` adds exactly 1, `pass`
leaves both scores unchanged and increments the pass counter by exactly
1 (while `correct`/`taboo` leave the pass counter alone). -/
theorem C3_score_rules :
    (∀ g : Game, Reachable g → 0 ≤ g.scores.red ∧ 0 ≤ g.scores.blue) ∧
    (∀ (g : Game) (c : String) (cs : List String), Reachable g →
      g.players ≠ [] → g.deck = c :: cs →
      (action g (some (activePlayer g).id) (some "taboo")).1.scores.get
          (activePlayer g).team
        = max 0 (g.scores.get (activePlayer g).team - 1) ∧
      (action g (some (activePlayer g).id) (some "correct")).1.scores.get
          (activePlayer g).team
        = g.scores.get (activePlayer g).team + 1 ∧
      (action g (some (activePlayer g).id) (some "pass")).1.scores = g.scores ∧
      (action g (some (activePlayer g).id) (some "pass")).1.passes = g.passes + 1 ∧
      (action g (some (activePlayer g).id) (some "correct")).1.passes = g.passes ∧
      (action g (some (activePlayer g).id) (some "taboo")).1.passes = g.passes) := by
  constructor
  · intro g h
    exact (reachable_invariant g h).1
  · intro g c cs hreach hp hd
    have hteam : (activePlayer g).team = "red" ∨ (activePlayer g).team = "blue" :=
      (reachable_invariant g hreach).2 _ (activePlayer_mem g hp)
    rw [action_accepted g (some "taboo") c cs hp hd,
        action_accepted g (some "correct") c cs hp hd,
        action_accepted g (some "pass") c cs hp hd]
    simp only []
    refine ⟨?_, ?_, ?_, ?_, ?_, ?_⟩
    · simp [Scores.get_set_self _ _ _ hteam]
    · simp [Scores.get_set_self _ _ _ hteam]
    · simp
    · simp
    · simp
    · simp

/-- C4: a `recordAction` or `advanceTurn` call whose requester is not
the active clue-giver leaves the entire game state unchanged. -/
theorem C4_wrong_requester_is_noop (g : Game) (spid a : Option String)
    (_hp : g.players ≠ []) (hne : spid ≠ some (activePlayer g).id) :
    (action g spid a).1 = g ∧ (next_turn g spid).1 = g :=
  ⟨action_rejected_eq g spid a (Or.inr (Or.inr hne)),
   next_turn_rejected_eq g spid (Or.inr hne)⟩

/-- C5 counterexample: a round is in progress (`started = true`, score
red 1, deck ["dog"]) and yet `start_game` succeeds and resets the
scores and the deck — there is no Idle-state precondition. -/
theorem C5_counterexample_restart_in_progress :
    gAfter.started = true ∧ gAfter.scores.red = 1 ∧ gAfter.deck = ["dog"] ∧
    (start_game gAfter rawCatalog id (some 60)).2 = StartResult.started ∧
    (start_game gAfter rawCatalog id (some 60)).1.scores.red = 0 ∧
    (start_game gAfter rawCatalog id (some 60)).1.deck = ["apple", "dog"] := by
  decide

/-- C5 (amended): `start_game` has no Idle-state precondition — it can
restart a round in progress.  It rejects with the not-enough-players,
unbalanced-teams or empty-catalog message exactly when the corresponding
precondition fails (checked in that order, independently of `started`),
and every rejection leaves the state unchanged. -/
theorem C5_amended_start_preconditions (g : Game) (raw : List RawEntry)
    (sh : List String → List String) (tl : Option Int) :
    ((start_game g raw sh tl).2 = .rejected "Add at least two players to start."
      ↔ g.players.length < 2) ∧
    ((start_game g raw sh tl).2 = .rejected "Add at least one player to each team."
      ↔ ¬g.players.length < 2 ∧
        ¬((∃ p ∈ g.players, p.team = "red") ∧ (∃ p ∈ g.players, p.team = "blue"))) ∧
    ((start_game g raw sh tl).2 = .rejected "No cards available in cards.json."
      ↔ ¬g.players.length < 2 ∧
        ((∃ p ∈ g.players, p.team = "red") ∧ (∃ p ∈ g.players, p.team = "blue")) ∧
        load_cards raw = []) ∧
    (∀ e, (start_game g raw sh tl).2 = .rejected e →
      (start_game g raw sh tl).1 = g) := by
  refine ⟨?_, ?_, ?_, fun e => start_rejected_eq g raw sh tl e⟩
  all_goals
    by_cases h1 : g.players.length < 2
    · simp [start_game, h1]
    · by_cases h2 : (∃ p ∈ g.players, p.team = "red") ∧
          ∃ p ∈ g.players, p.team = "blue"
      · by_cases h3 : load_cards raw = []
        · simp [start_game, h1, h2, h3]
        · cases tl <;> simp [start_game, h1, h2, h3]
      · simp [start_game, h1, h2]

/-- C6 counterexample: `start_game` with an unparsable time-limit field
fails (uncaught `ValueError`, not a rejection) yet has already mutated
the state: a failure path with a partial mutation. -/
theorem C6_counterexample_partial_mutation :
    (start_game gJoined3 rawCatalog id none).2 = StartResult.valueError ∧
    (start_game gJoined3 rawCatalog id none).2.isRejected = false ∧
    (start_game gJoined3 rawCatalog id none).1.deck ≠ gJoined3.deck ∧
    (start_game gJoined3 rawCatalog id none).1.started = gJoined3.started := by
  decide

/-- C6 (amended): every explicit rejection path of the handlers —
round-in-progress or invalid input on `join`, the three `start_game`
precondition messages, and the guard rejections of `action` and
`next_turn` — leaves the prior state untouched; only the
invalid-time-limit `ValueError` path of `start_game` mutates state while
failing. -/
theorem C6_amended_rejections_are_noops :
    (∀ g name team newId e, (join g name team newId).2 = .rejected e →
      (join g name team newId).1 = g) ∧
    (∀ (g : Game) (raw : List RawEntry) (sh : List String → List String)
        (tl : Option Int) (e : String),
      (start_game g raw sh tl).2 = .rejected e → (start_game g raw sh tl).1 = g) ∧
    (∀ (g : Game) (spid a : Option String),
      g.players = [] ∨ g.deck = [] ∨ spid ≠ some (activePlayer g).id →
      (action g spid a).1 = g) ∧
    (∀ (g : Game) (spid : Option String),
      g.players = [] ∨ spid ≠ some (activePlayer g).id →
      (next_turn g spid).1 = g) :=
  ⟨join_rejected_eq, start_rejected_eq, action_rejected_eq, next_turn_rejected_eq⟩

/-- C7: an accepted `pass` recycles the front card to the back (deck
length unchanged) and increments the pass counter by exactly 1, while
accepted `correct` and `taboo` discard the front card, shrinking the
deck by one. -/
theorem C7_pass_recycles_front_card (g : Game) (c : String) (cs : List String)
    (hp : g.players ≠ []) (hd : g.deck = c :: cs) :
    (action g (some (activePlayer g).id) (some "pass")).1.deck = cs ++ [c] ∧
    (action g (some (activePlayer g).id) (some "pass")).1.deck.length
      = g.deck.length ∧
    (action g (some (activePlayer g).id) (some "pass")).1.passes = g.passes + 1 ∧
    (action g (some (activePlayer g).id) (some "correct")).1.deck = cs ∧
    (action g (some (activePlayer g).id) (some "correct")).1.deck.length + 1
      = g.deck.length ∧
    (action g (some (activePlayer g).id) (some "taboo")).1.deck = cs ∧
    (action g (some (activePlayer g).id) (some "taboo")).1.deck.length + 1
      = g.deck.length := by
  rw [action_accepted g (some "pass") c cs hp hd,
      action_accepted g (some "correct") c cs hp hd,
      action_accepted g (some "taboo") c cs hp hd]
  simp [hd]

/-- C8 counterexample: an unparsable time-limit is not surfaced as a
rejection with a reason message — the handler ends in an uncaught
`ValueError`. -/
theorem C8_counterexample_value_error :
    (start_game gJoined rawCatalog id none).2 = StartResult.valueError ∧
    (start_game gJoined rawCatalog id none).2.isRejected = false := by
  decide

/-- C8 (amended): when the three explicit preconditions pass and the
time-limit field is unparsable, `start_game` terminates with an uncaught
`ValueError` (HTTP 500) instead of a rejection, after already mutating
deck, cards, scores, passes and turn index (started and time_limit keep
their prior values). -/
theorem C8_amended_invalid_time_limit (g : Game) (raw : List RawEntry)
    (sh : List String → List String)
    (h1 : ¬g.players.length < 2)
    (h2 : (∃ p ∈ g.players, p.team = "red") ∧ (∃ p ∈ g.players, p.team = "blue"))
    (h3 : load_cards raw ≠ []) :
    (start_game g raw sh none).2 = StartResult.valueError ∧
    (start_game g raw sh none).1.started = g.started ∧
    (start_game g raw sh none).1.time_limit = g.time_limit ∧
    (start_game g raw sh none).1.deck = sh ((load_cards raw).map Card.word) ∧
    (start_game g raw sh none).1.cards = load_cards raw ∧
    (start_game g raw sh none).1.scores = ⟨0, 0⟩ ∧
    (start_game g raw sh none).1.passes = 0 ∧
    (start_game g raw sh none).1.turn_index = 0 := by
  simp [start_game, h1, h2, h3]

/-- C10: an accepted action whose kind is none of correct/taboo/pass
still discards the front card (deck shrinks by one) while both scores
and the pass counter are unchanged. -/
theorem C10_unknown_action_discards_card (g : Game) (c : String)
    (cs : List String) (a : Option String)
    (hp : g.players ≠ []) (hd : g.deck = c :: cs)
    (h1 : a ≠ some "correct") (h2 : a ≠ some "taboo") (h3 : a ≠ some "pass") :
    (action g (some (activePlayer g).id) a).1.deck = cs ∧
    (action g (some (activePlayer g).id) a).1.deck.length + 1 = g.deck.length ∧
    (action g (some (activePlayer g).id) a).1.scores = g.scores ∧
    (action g (some (activePlayer g).id) a).1.passes = g.passes := by
  rw [action_accepted g a c cs hp hd]
  simp [hd, h1, h2, h3]


/-! Witnesses: each theorem with hypotheses applied at a concrete input. -/

/-- `gJoined` is a reachable state. -/
theorem reachable_gJoined : Reachable gJoined :=
  Reachable.step_join (join initGame "Alice" "red" "idA").1 "Bob" "blue" "idB"
    (Reachable.step_join initGame "Alice" "red" "idA" Reachable.init)

/-- `gStarted` is a reachable state. -/
theorem reachable_gStarted : Reachable gStarted :=
  Reachable.step_start gJoined rawCatalog id (some 60) reachable_gJoined

/-- C1 witness: Carol (red, not active) asking for the view of
`gStarted3` (Alice active, red) gets `can_view = false` and no word. -/
theorem C1_witness_carol :
    game_route gStarted3 (some "idC") = some viewC ∧
    get_current_user gStarted3 (some "idC") = some carol ∧
    carol.team = viewC.current_player.team ∧
    carol.id ≠ viewC.current_player.id ∧
    (viewC.can_view = false ∧ revealedWord viewC = none) :=
  ⟨by decide, by decide, by decide, by decide,
   C1_same_team_requester_sees_no_word gStarted3 (some "idC") viewC carol
     (by decide) (by decide) (by decide) (by decide)⟩

/-- C2 witness: Alice pops the last card of `gOne` with `correct`; the
deck is exhausted and the next action call is a state-preserving
rejection. -/
theorem C2_witness_exhaustion :
    gOne.players ≠ [] ∧ gOne.deck = ["apple"] ∧
    (some "correct" : Option String) ≠ some "pass" ∧
    (action gOne (some (activePlayer gOne).id) (some "correct")).1.deck = [] ∧
    (action gOne (some (activePlayer gOne).id) (some "correct")).1.started
      = gOne.started ∧
    action (action gOne (some (activePlayer gOne).id) (some "correct")).1
        (some "idA") (some "correct")
      = ((action gOne (some (activePlayer gOne).id) (some "correct")).1,
         ActionResponse.redirectIndex) :=
  ⟨by decide, by decide, by decide,
   (C2_amended_deck_exhaustion gOne "apple" (some "correct")
     (by decide) (by decide) (by decide)).1,
   (C2_amended_deck_exhaustion gOne "apple" (some "correct")
     (by decide) (by decide) (by decide)).2.2.1,
   (C2_amended_deck_exhaustion gOne "apple" (some "correct")
     (by decide) (by decide) (by decide)).2.2.2 (some "idA") (some "correct")⟩

/-- C3 witness: the invariant at the initial state and the three action
rules at the reachable state `gStarted`. -/
theorem C3_witness_gStarted :
    (0 ≤ initGame.scores.red ∧ 0 ≤ initGame.scores.blue) ∧
    ((action gStarted (some (activePlayer gStarted).id) (some "taboo")).1.scores.get
        (activePlayer gStarted).team
      = max 0 (gStarted.scores.get (activePlayer gStarted).team - 1) ∧
     (action gStarted (some (activePlayer gStarted).id) (some "correct")).1.scores.get
        (activePlayer gStarted).team
      = gStarted.scores.get (activePlayer gStarted).team + 1 ∧
     (action gStarted (some (activePlayer gStarted).id) (some "pass")).1.scores
      = gStarted.scores ∧
     (action gStarted (some (activePlayer gStarted).id) (some "pass")).1.passes
      = gStarted.passes + 1 ∧
     (action gStarted (some (activePlayer gStarted).id) (some "correct")).1.passes
      = gStarted.passes ∧
     (action gStarted (some (activePlayer gStarted).id) (some "taboo")).1.passes
      = gStarted.passes) :=
  ⟨C3_score_rules.1 initGame Reachable.init,
   C3_score_rules.2 gStarted "apple" ["dog"] reachable_gStarted
     (by decide) (by decide)⟩

/-- C4 witness: Bob (not the active clue-giver) can neither record an
action nor advance the turn in `gStarted`. -/
theorem C4_witness_bob :
    gStarted.players ≠ [] ∧
    (some "idB" : Option String) ≠ some (activePlayer gStarted).id ∧
    ((action gStarted (some "idB") (some "correct")).1 = gStarted ∧
     (next_turn gStarted (some "idB")).1 = gStarted) :=
  ⟨by decide, by decide,
   C4_wrong_requester_is_noop gStarted (some "idB") (some "correct")
     (by decide) (by decide)⟩

/-- C5 witness: starting with an empty roster is rejected with the
not-enough-players message and leaves the state unchanged. -/
theorem C5_witness_empty_roster :
    (start_game initGame rawCatalog id (some 60)).2
      = StartResult.rejected "Add at least two players to start." ∧
    (start_game initGame rawCatalog id (some 60)).1 = initGame :=
  ⟨by decide,
   (C5_amended_start_preconditions initGame rawCatalog id (some 60)).2.2.2
     "Add at least two players to start." (by decide)⟩

/-- C6 witness: a join rejected because the round is running leaves the
state unchanged. -/
theorem C6_witness_join_rejected :
    (join gAfter "Zoe" "red" "idZ").2
      = JoinResult.rejected "Round already started. End round to join." ∧
    (join gAfter "Zoe" "red" "idZ").1 = gAfter :=
  ⟨by decide,
   C6_amended_rejections_are_noops.1 gAfter "Zoe" "red" "idZ"
     "Round already started. End round to join." (by decide)⟩

/-- C7 witness: Alice passes, then the deck of `gStarted` is rotated;
`correct`/`taboo` shrink it instead. -/
theorem C7_witness_gStarted :
    gStarted.players ≠ [] ∧ gStarted.deck = "apple" :: ["dog"] ∧
    ((action gStarted (some (activePlayer gStarted).id) (some "pass")).1.deck
      = ["dog"] ++ ["apple"] ∧
     (action gStarted (some (activePlayer gStarted).id) (some "pass")).1.deck.length
      = gStarted.deck.length ∧
     (action gStarted (some (activePlayer gStarted).id) (some "pass")).1.passes
      = gStarted.passes + 1 ∧
     (action gStarted (some (activePlayer gStarted).id) (some "correct")).1.deck
      = ["dog"] ∧
     (action gStarted (some (activePlayer gStarted).id) (some "correct")).1.deck.length + 1
      = gStarted.deck.length ∧
     (action gStarted (some (activePlayer gStarted).id) (some "taboo")).1.deck
      = ["dog"] ∧
     (action gStarted (some (activePlayer gStarted).id) (some "taboo")).1.deck.length + 1
      = gStarted.deck.length) :=
  ⟨by decide, by decide,
   C7_pass_recycles_front_card gStarted "apple" ["dog"] (by decide) (by decide)⟩

/-- C8 witness: `gJoined3` with the one-card catalog and an unparsable
time limit: `ValueError` after the partial mutation. -/
theorem C8_witness_gJoined3 :
    ¬gJoined3.players.length < 2 ∧
    ((∃ p ∈ gJoined3.players, p.team = "red") ∧
      (∃ p ∈ gJoined3.players, p.team = "blue")) ∧
    load_cards rawOne ≠ [] ∧
    ((start_game gJoined3 rawOne id none).2 = StartResult.valueError ∧
     (start_game gJoined3 rawOne id none).1.started = gJoined3.started ∧
     (start_game gJoined3 rawOne id none).1.time_limit = gJoined3.time_limit ∧
     (start_game gJoined3 rawOne id none).1.deck
      = id ((load_cards rawOne).map Card.word) ∧
     (start_game gJoined3 rawOne id none).1.cards = load_cards rawOne ∧
     (start_game gJoined3 rawOne id none).1.scores = ⟨0, 0⟩ ∧
     (start_game gJoined3 rawOne id none).1.passes = 0 ∧
     (start_game gJoined3 rawOne id none).1.turn_index = 0) :=
  ⟨by decide, by decide, by decide,
   C8_amended_invalid_time_limit gJoined3 rawOne id
     (by decide) (by decide) (by decide)⟩

/-- C10 witness: an unknown action kind ("skip") by Alice discards the
front card of `gStarted` and changes neither scores nor passes. -/
theorem C10_witness_skip :
    gStarted.players ≠ [] ∧ gStarted.deck = "apple" :: ["dog"] ∧
    ((action gStarted (some (activePlayer gStarted).id) (some "skip")).1.deck
      = ["dog"] ∧
     (action gStarted (some (activePlayer gStarted).id) (some "skip")).1.deck.length + 1
      = gStarted.deck.length ∧
     (action gStarted (some (activePlayer gStarted).id) (some "skip")).1.scores
      = gStarted.scores ∧
     (action gStarted (some (activePlayer gStarted).id) (some "skip")).1.passes
      = gStarted.passes) :=
  ⟨by decide, by decide,
   C10_unknown_action_discards_card gStarted "apple" ["dog"] (some "skip")
     (by decide) (by decide) (by decide) (by decide) (by decide)⟩


end Taboo
